import Mathlib

/-!
Verification of the MCP container server (`src/server.py`).

Shallow embedding: the pure tool bodies and prompt renderers become Lean
functions; Python floats become `Rat`; the `context_info` coroutine becomes
the list of events it emits, ending in its returned result; the FastMCP
registries become the lists built by the registration calls at startup.
-/

/-- `WeatherData` pydantic model: temperature, condition, humidity, city. -/
structure WeatherData where
  temperature : Rat
  condition : String
  humidity : Int
  city : String
deriving DecidableEq, Repr

/-- One row of the `mock_weather` dictionary (temp, condition, humidity). -/
structure WeatherInfo where
  temp : Rat
  condition : String
  humidity : Int
deriving DecidableEq, Repr

/-- The `mock_weather` dictionary from `get_weather`, in source order. -/
def mock_weather : List (String × WeatherInfo) :=
  [("San Francisco", ⟨18.5, "foggy", 85⟩),
   ("New York", ⟨22.0, "sunny", 60⟩),
   ("London", ⟨12.0, "rainy", 90⟩),
   ("Tokyo", ⟨25.0, "partly cloudy", 70⟩)]

/-- The default payload of `mock_weather.get(city, ...)` for unknown keys. -/
def default_weather_info : WeatherInfo :=
  ⟨20.0, "unknown", 50⟩

/-- `get_weather` tool: dictionary lookup with a default payload; the returned
record copies the requested city into the `city` field. The Python default
argument is `city="San Francisco"`. -/
def get_weather (city : String := "San Francisco") : WeatherData :=
  let weather_info := (mock_weather.lookup city).getD default_weather_info
  { temperature := weather_info.temp,
    condition := weather_info.condition,
    humidity := weather_info.humidity,
    city := city }

/-- `sum_numbers` tool: returns `a + b`. -/
def sum_numbers (a b : Rat) : Rat :=
  a + b

/-- Out-of-band events and the terminal result emitted during one tool
invocation (`ctx.info`/`ctx.debug` → `log`, `ctx.report_progress` →
`progress`, the returned `CallToolResult` → `result`). -/
inductive Event where
  | log (level : String) (text : String)
  | progress (fraction : Rat) (total : Rat) (text : String)
  | result (isError : Bool) (text : String)
deriving DecidableEq, Repr

/-- The `response_text` f-string built by `context_info`. -/
def response_text (message request_id : String) : String :=
  "Context Information:\n- Message: " ++ message ++
  "\n- Request ID: " ++ request_id ++
  "\n- Context logging available: Yes" ++
  "\n- Progress reporting available: Yes" ++
  "\n- User interaction capabilities: Available through context\n"

/-- `context_info` tool, embedded as the ordered list of events of one
invocation: the two log calls, the two progress reports, then the returned
`CallToolResult` as the terminal event. `request_id` is the value read from
`ctx.request_context` (or the string "unknown" when absent). -/
def context_info (message request_id : String) : List Event :=
  [Event.log "info" ("Processing context info request: " ++ message),
   Event.log "debug" "This is a debug message from the context tool",
   Event.progress 0.5 1.0 "Processing message...",
   Event.progress 1.0 1.0 "Complete",
   Event.result false (response_text message request_id)]

/-- Recognizer for terminal `result` events. -/
def isResultEvent : Event → Bool
  | Event.result _ _ => true
  | _ => false

/-- Recognizer for `log` events. -/
def isLogEvent : Event → Bool
  | Event.log _ _ => true
  | _ => false

/-- Extracts (fraction, total) from a `progress` event. -/
def progressOf : Event → Option (Rat × Rat)
  | Event.progress f t _ => some (f, t)
  | _ => none

/-- The "detailed" template of `weather_report_prompt` (one f-string with a
single `city` interpolation). -/
def detailed_template (city : String) : String :=
  "Please provide a detailed weather report for " ++ city ++
  ". Include:\n- Current temperature and conditions\n- Humidity levels\n- Wind speed and direction\n- UV index\n- Air quality\n- Extended forecast for the next 3 days"

/-- The "forecast" template of `weather_report_prompt` (one f-string with a
single `city` interpolation). -/
def forecast_template (city : String) : String :=
  "Please provide a 5-day weather forecast for " ++ city ++
  " including:\n- Daily high and low temperatures\n- Precipitation probability\n- Weather conditions\n- Any weather alerts or advisories"

/-- The "brief" (else-branch) template of `weather_report_prompt`. -/
def brief_template (city : String) : String :=
  "What\x27s the current weather in " ++ city ++
  "? Please provide temperature, conditions, and humidity."

/-- `weather_report_prompt`: dispatches on `format`; defaults are
`city="San Francisco"`, `format="brief"`. -/
def weather_report_prompt (city : String := "San Francisco")
    (format : String := "brief") : String :=
  if format = "detailed" then detailed_template city
  else if format = "forecast" then forecast_template city
  else brief_template city

/-- The opening sentence of `calculation_helper_prompt` (`base_prompt`
before anything is appended). -/
def calc_base (operation : String) : String :=
  "Please help me with a " ++ operation ++ " calculation."

/-- The context segment appended by `calculation_helper_prompt`: Python
`if context:` is the non-empty test on the string. -/
def calc_context_part (context : String) : String :=
  if context = "" then "" else " Context: " ++ context

/-- The per-operation instruction appended by `calculation_helper_prompt`. -/
def calc_instruction (operation : String) : String :=
  if operation = "addition" then
    " Please add the numbers and show your work."
  else if operation = "subtraction" then
    " Please subtract the numbers and explain the process."
  else if operation = "multiplication" then
    " Please multiply the numbers and show intermediate steps."
  else if operation = "division" then
    " Please divide the numbers and handle any remainders appropriately."
  else
    " Please perform the calculation and explain your approach."

/-- `calculation_helper_prompt`: base sentence, then the optional context
segment, then the operation instruction, appended in source order. -/
def calculation_helper_prompt (operation : String := "addition")
    (context : String := "") : String :=
  calc_base operation ++ calc_context_part context ++ calc_instruction operation

/-- Names of the tools registered by the three `@mcp.tool()` calls at
startup, in registration order. -/
def toolRegistry : List String :=
  ["get_weather", "sum_numbers", "context_info"]

/-- Names of the prompts registered by the two `@mcp.prompt(...)` calls at
startup, in registration order. -/
def promptRegistry : List String :=
  ["weather_report", "calculation_helper"]

/-- Modelled from the spec: `mcp.list_tools()` is FastMCP discovery, whose
implementation is not in this repository; per the spec it returns one
descriptor per registration call made at startup, so we model it as the
tool registry. -/
def list_tools : List String :=
  toolRegistry

/-- Modelled from the spec: the prompt-registry read in the custom routes
(the FastMCP prompt store is not in this repository); per the spec the
endpoints perform a direct read of registry sizes/name lists, so we model
it as the prompt registry. -/
def mcp_prompts : List String :=
  promptRegistry

/-- The JSON body returned by the `/health` route. -/
structure HealthResponse where
  status : String
  server : String
  transport : String
  tools_count : Nat
  prompts_count : Nat
deriving DecidableEq, Repr

/-- `health_check` custom route: status plus the two registry sizes. -/
def health_check : HealthResponse :=
  { status := "healthy",
    server := "ContainerMCPServer",
    transport := "streamable-http",
    tools_count := list_tools.length,
    prompts_count := mcp_prompts.length }

/-- The JSON body returned by the `/` route. -/
structure RootResponse where
  name : String
  version : String
  transport : String
  mcp_endpoint : String
  health_endpoint : String
  tools : List String
  prompts : List String
deriving DecidableEq, Repr

/-- `root_info` custom route: server identity plus the registry name lists. -/
def root_info : RootResponse :=
  { name := "Container MCP Server",
    version := "1.0.0",
    transport := "streamable-http",
    mcp_endpoint := "/mcp",
    health_endpoint := "/health",
    tools := list_tools,
    prompts := mcp_prompts }

/-- The process-wide FastMCP configuration fields set at construction. -/
structure FastMCPConfig where
  name : String
  stateless_http : Bool
  json_response : Bool
deriving DecidableEq, Repr

/-- The `mcp = FastMCP(...)` construction at module load. -/
def mcp : FastMCPConfig :=
  { name := "ContainerMCPServer",
    stateless_http := true,
    json_response := false }

/-- The configuration update performed by `run_server`: it sets
`mcp.json_response` to `True` when its `json_response` flag is true and
leaves the configuration untouched otherwise. -/
def run_server (cfg : FastMCPConfig) (json_response : Bool) : FastMCPConfig :=
  if json_response then { cfg with json_response := true } else cfg

/-- C1: every invocation of `context_info` produces exactly one terminal
result event; it is the last event of the trace, so the two log emissions
and the two progress emissions all precede it. -/
theorem context_info_single_terminal_result (message request_id : String) :
    ((context_info message request_id).filter isResultEvent).length = 1 ∧
    (context_info message request_id).dropLast.filter isResultEvent = [] ∧
    (context_info message request_id).getLast? =
      some (Event.result false (response_text message request_id)) ∧
    ((context_info message request_id).filter isLogEvent).length = 2 ∧
    ((context_info message request_id).filterMap progressOf).length = 2 :=
  ⟨rfl, rfl, rfl, rfl, rfl⟩

/-- C2: `sum_numbers` returns the arithmetic sum of its arguments; in
particular (2,3) gives 5, (-1,1) gives 0 and (2.5,3.7) gives 6.2. -/
theorem sum_numbers_correct :
    sum_numbers 2 3 = 5 ∧ sum_numbers (-1) 1 = 0 ∧
    sum_numbers 2.5 3.7 = 6.2 ∧ ∀ a b : Rat, sum_numbers a b = a + b :=
  ⟨by norm_num [sum_numbers], by norm_num [sum_numbers],
   by norm_num [sum_numbers], fun _ _ => rfl⟩

/-- C3: for every city outside the four known keys, `get_weather` returns the
documented default payload (temperature 20.0, condition "unknown", humidity
50) with the requested city echoed back; being a total function it never
fails. -/
theorem get_weather_unknown_city_default (city : String)
    (h1 : city ≠ "San Francisco") (h2 : city ≠ "New York")
    (h3 : city ≠ "London") (h4 : city ≠ "Tokyo") :
    get_weather city = ⟨20.0, "unknown", 50, city⟩ := by
  simp [get_weather, mock_weather, default_weather_info, List.lookup,
    show (city == "San Francisco") = false from beq_eq_false_iff_ne.mpr h1,
    show (city == "New York") = false from beq_eq_false_iff_ne.mpr h2,
    show (city == "London") = false from beq_eq_false_iff_ne.mpr h3,
    show (city == "Tokyo") = false from beq_eq_false_iff_ne.mpr h4]

/-- Witness for C3: the default payload at the concrete city "Unknown City". -/
theorem get_weather_unknown_city_default_witness :
    get_weather "Unknown City" = ⟨20.0, "unknown", 50, "Unknown City"⟩ :=
  get_weather_unknown_city_default "Unknown City"
    (by decide) (by decide) (by decide) (by decide)

/-- C4: the health endpoint reports status "healthy" together with the two
registry sizes, which equal the number of registration calls made at
startup: 3 tools and 2 prompts. -/
theorem health_check_counts :
    health_check.status = "healthy" ∧
    health_check.tools_count = toolRegistry.length ∧
    health_check.prompts_count = promptRegistry.length ∧
    health_check.tools_count = 3 ∧
    health_check.prompts_count = 2 :=
  ⟨rfl, rfl, rfl, rfl, rfl⟩

/-- C5: the root endpoint returns the server identity (name, version and the
two endpoint paths) together with the name lists of both registries. -/
theorem root_info_identity_and_names :
    root_info.name = "Container MCP Server" ∧
    root_info.version = "1.0.0" ∧
    root_info.mcp_endpoint = "/mcp" ∧
    root_info.health_endpoint = "/health" ∧
    root_info.tools = ["get_weather", "sum_numbers", "context_info"] ∧
    root_info.prompts = ["weather_report", "calculation_helper"] ∧
    root_info.tools = toolRegistry ∧
    root_info.prompts = promptRegistry :=
  ⟨rfl, rfl, rfl, rfl, rfl, rfl, rfl, rfl⟩

/-- C6: within one `context_info` invocation the reported progress pairs are
exactly (0.5, 1.0) then (1.0, 1.0), a monotonically non-decreasing sequence
of fractions and totals. -/
theorem context_info_progress_monotone (message request_id : String) :
    (context_info message request_id).filterMap progressOf =
      [((0.5 : Rat), (1.0 : Rat)), (1.0, 1.0)] ∧
    List.Chain' (fun p q : Rat × Rat => p.1 ≤ q.1 ∧ p.2 ≤ q.2)
      ((context_info message request_id).filterMap progressOf) := by
  refine ⟨rfl, ?_⟩
  simp only [show (context_info message request_id).filterMap progressOf =
    [((0.5 : Rat), (1.0 : Rat)), (1.0, 1.0)] from rfl]
  norm_num [List.chain'_cons]

/-- C7: delivery mode is a process-wide startup choice: the server is
constructed with `json_response = False`, and `run_server` sets the flag to
true exactly when asked, leaving the configuration unchanged otherwise. -/
theorem json_response_startup_flag :
    mcp.json_response = false ∧
    mcp.stateless_http = true ∧
    (∀ cfg : FastMCPConfig, (run_server cfg true).json_response = true) ∧
    (∀ cfg : FastMCPConfig, run_server cfg false = cfg) ∧
    (∀ b : Bool, (run_server mcp b).json_response = b) :=
  ⟨rfl, rfl, fun _ => rfl, fun _ => rfl, fun b => by cases b <;> rfl⟩

/-- C8: `get_weather` echoes the requested city in the `city` field for every
input, returns exactly the table payloads for the four known cities, and
its default argument is "San Francisco". -/
theorem get_weather_table_and_city :
    (∀ city : String, (get_weather city).city = city) ∧
    get_weather "San Francisco" = ⟨18.5, "foggy", 85, "San Francisco"⟩ ∧
    get_weather "New York" = ⟨22.0, "sunny", 60, "New York"⟩ ∧
    get_weather "London" = ⟨12.0, "rainy", 90, "London"⟩ ∧
    get_weather "Tokyo" = ⟨25.0, "partly cloudy", 70, "Tokyo"⟩ ∧
    (get_weather : WeatherData) = get_weather "San Francisco" :=
  ⟨fun _ => rfl, rfl, rfl, rfl, rfl, rfl⟩

/-- C9: `weather_report_prompt` always mentions the given city; the formats
"detailed" and "forecast" select their templates, every other format
(including the default "brief") yields the brief template. -/
theorem weather_report_prompt_formats :
    (∀ city format : String,
      ∃ p s, weather_report_prompt city format = p ++ city ++ s) ∧
    (∀ city : String,
      weather_report_prompt city "detailed" = detailed_template city) ∧
    (∀ city : String,
      weather_report_prompt city "forecast" = forecast_template city) ∧
    (∀ city format : String, format ≠ "detailed" → format ≠ "forecast" →
      weather_report_prompt city format = brief_template city) ∧
    (∀ city : String, (weather_report_prompt city : String) = brief_template city) := by
  refine ⟨?_, fun _ => rfl, fun _ => rfl, ?_, fun _ => rfl⟩
  · intro city format
    unfold weather_report_prompt detailed_template forecast_template brief_template
    split
    · exact ⟨_, _, rfl⟩
    · split
      · exact ⟨_, _, rfl⟩
      · exact ⟨_, _, rfl⟩
  · intro city format h1 h2
    simp [weather_report_prompt, h1, h2]

/-- Witness for C9: a format that is neither "detailed" nor "forecast"
yields the brief template at a concrete input. -/
theorem weather_report_prompt_formats_witness :
    weather_report_prompt "Paris" "brief" = brief_template "Paris" :=
  weather_report_prompt_formats.2.2.2.1 "Paris" "brief" (by decide) (by decide)

/-- C10: `calculation_helper_prompt` always begins with the base sentence
"Please help me with a (operation) calculation."; the context segment is
appended exactly when the context string is non-empty; the four known
operations append their specific instruction and any other operation the
generic one. -/
theorem calculation_helper_prompt_structure :
    (∀ op ctx : String,
      ∃ s, calculation_helper_prompt op ctx = calc_base op ++ s) ∧
    (∀ op : String,
      calculation_helper_prompt op "" = calc_base op ++ calc_instruction op) ∧
    (∀ op ctx : String, ctx ≠ "" →
      calculation_helper_prompt op ctx =
        calc_base op ++ (" Context: " ++ ctx) ++ calc_instruction op) ∧
    calc_instruction "addition" = " Please add the numbers and show your work." ∧
    calc_instruction "subtraction" = " Please subtract the numbers and explain the process." ∧
    calc_instruction "multiplication" = " Please multiply the numbers and show intermediate steps." ∧
    calc_instruction "division" = " Please divide the numbers and handle any remainders appropriately." ∧
    (∀ op : String, op ≠ "addition" → op ≠ "subtraction" →
      op ≠ "multiplication" → op ≠ "division" →
      calc_instruction op = " Please perform the calculation and explain your approach.") := by
  refine ⟨?_, ?_, ?_, rfl, rfl, rfl, rfl, ?_⟩
  · exact fun op ctx => ⟨_, String.append_assoc _ _ _⟩
  · intro op
    simp [calculation_helper_prompt, calc_context_part]
  · intro op ctx h
    simp [calculation_helper_prompt, calc_context_part, h]
  · intro op h1 h2 h3 h4
    simp [calc_instruction, h1, h2, h3, h4]

/-- Witness for C10: a non-empty context is included at a concrete input. -/
theorem calculation_helper_prompt_structure_witness :
    calculation_helper_prompt "multiplication" "budget calculation" =
      calc_base "multiplication" ++ (" Context: " ++ "budget calculation") ++
        calc_instruction "multiplication" :=
  calculation_helper_prompt_structure.2.2.1 "multiplication" "budget calculation"
    (by decide)
